import Mathlib

/-!
Verification of the web-scraping-and-automation program (src/main.py).

The program consists of three fetch adapters (CryptoScraper.fetch_crypto_prices,
NewsScraper.get_latest_news, WeatherScraper.get_latest_weather), an aggregator
(AutomationScraper.fetch_all_data) and a CLI shell (run_automation_scraper).

Shallow embedding choices:
- Network and parsing effects are modelled by an outcome value supplied as an
  input to each adapter: either the awaited call raised a Python exception
  (transport failure, JSON decode failure), or it produced a parsed document.
- JSON values are the inductive type Json; parsed HTML is modelled at the
  granularity the code observes it: a list of table rows, each a list of
  columns, each column carrying the text of its first nested link element
  when one is found.
- Python dictionary subscripting and dict.get are fallible operations
  returning Except PyErr; the broad try/except of each adapter is the
  handler that maps any error to the empty default.
- The CLI shell is a pure function from its stdin-derived inputs and the
  three outcomes to a trace of observable events plus an optional uncaught
  exception.
-/

/-- Python exception kinds that the modelled code can raise. -/
inductive PyErr where
  | connectionError
  | jsonDecodeError
  | indexError
  | attributeError
  | typeError
  | keyError
deriving DecidableEq, Repr

/-- JSON values, as produced by response.json(). -/
inductive Json where
  | null
  | bool (b : Bool)
  | num (q : Rat)
  | str (s : String)
  | arr (items : List Json)
  | obj (fields : List (String × Json))

/-- Python dict.get(key, default): returns the value stored under key, the
default when the key is missing, and raises AttributeError when the receiver
is not a dictionary. -/
def pyGet (j : Json) (key : String) (default : Json) : Except PyErr Json :=
  match j with
  | .obj fields => .ok ((fields.lookup key).getD default)
  | _ => .error .attributeError

/-- Python dict subscripting d[key]: KeyError on a missing key, TypeError when
the receiver is not a dictionary. -/
def pyIndex (j : Json) (key : String) : Except PyErr Json :=
  match j with
  | .obj fields =>
    match fields.lookup key with
    | some v => .ok v
    | none => .error .keyError
  | _ => .error .typeError

/-- One table column (a td element): the text of its first nested link
element, when the column contains one. -/
structure Col where
  link : Option String
deriving DecidableEq, Repr

/-- One table row (a tr element): its list of td columns. -/
structure Row where
  cols : List Col
deriving DecidableEq, Repr

/-- A crypto price entry as built by fetch_crypto_prices:
the dictionary with keys name and price. -/
structure PriceQuote where
  name : String
  price : String
deriving DecidableEq, Repr

/-- Outcome of the market-page fetch: either the awaited call raised, or it
yielded markup whose tr elements are the given rows (BeautifulSoup parses
malformed markup leniently and does not raise). -/
inductive CryptoOutcome where
  | raise (e : PyErr)
  | ok (rows : List Row)

/-- A parsed HTTP response: status code and JSON-decoded body. -/
structure HttpResponse where
  status : Nat
  body : Json

/-- Outcome of an API fetch: either the awaited call or response.json()
raised, or a parsed response was produced. -/
inductive ApiOutcome where
  | raise (e : PyErr)
  | ok (resp : HttpResponse)

/-- Body of the per-row extraction in fetch_crypto_prices:
if len(cols) greater than 0, read cols[2].find(link).text defaulting to N/A,
then cols[3] likewise; indexing past the end raises IndexError.
Rows with zero columns yield no entry. -/
def extractRow (cols : List Col) : Except PyErr (Option (String × String)) :=
  if cols.length > 0 then
    match cols[2]?, cols[3]? with
    | some c2, some c3 => .ok (some (c2.link.getD "N/A", c3.link.getD "N/A"))
    | none, _ => .error .indexError
    | some _, none => .error .indexError
  else
    .ok none

/-- The extraction loop of fetch_crypto_prices over the selected rows: an
exception in any iteration aborts the loop (and the entries appended so far
are discarded by the handler in the adapter). -/
def fetchLoop : List Row → Except PyErr (List PriceQuote)
  | [] => .ok []
  | r :: rs =>
    match extractRow r.cols with
    | .error e => .error e
    | .ok none => fetchLoop rs
    | .ok (some (n, p)) =>
      match fetchLoop rs with
      | .error e => .error e
      | .ok qs => .ok (⟨n, p⟩ :: qs)

/-- The code inside the try block of fetch_crypto_prices: fetch the page,
take the first 5 tr rows, run the extraction loop. -/
def cryptoBody : CryptoOutcome → Except PyErr (List PriceQuote)
  | .raise e => .error e
  | .ok rows => fetchLoop (rows.take 5)

/-- CryptoScraper.fetch_crypto_prices: the try body with the broad
except-handler returning the empty list. -/
def fetch_crypto_prices (o : CryptoOutcome) : List PriceQuote :=
  match cryptoBody o with
  | .ok qs => qs
  | .error _ => []

/-- The code inside the try block of get_latest_news:
data.get(articles, []) sliced to the first 5 entries. A non-array value
stored under the articles key is a shape error absorbed by the handler. -/
def newsBody : ApiOutcome → Except PyErr (List Json)
  | .raise e => .error e
  | .ok resp =>
    match pyGet resp.body "articles" (Json.arr []) with
    | .error e => .error e
    | .ok a =>
      match a with
      | .arr items => .ok (items.take 5)
      | _ => .error .typeError

/-- Default value of the topic parameter of get_latest_news in the source. -/
def defaultTopic : String := "technology"

/-- NewsScraper.get_latest_news: the try body with the broad except-handler
returning the empty list. The topic parameter only shapes the outgoing
request (query parameter q); the response is the supplied outcome. -/
def get_latest_news (topic : String) (o : ApiOutcome) : List Json :=
  match topic, newsBody o with
  | _, .ok arts => arts
  | _, .error _ => []

/-- The code inside the try block of get_latest_weather: decode the JSON
body, return it when the status is 200, otherwise log data.get(message)
(which raises AttributeError on a non-dictionary body) and return the empty
mapping. -/
def weatherBody : ApiOutcome → Except PyErr Json
  | .raise e => .error e
  | .ok resp =>
    if resp.status = 200 then
      .ok resp.body
    else
      match pyGet resp.body "message" Json.null with
      | .ok _ => .ok (Json.obj [])
      | .error e => .error e

/-- Default value of the location parameter of get_latest_weather in the
source. -/
def defaultLocation : String := "Addis Ababa"

/-- WeatherScraper.get_latest_weather: the try body with the broad
except-handler returning the empty mapping. The location parameter only
shapes the outgoing request (query parameter q). -/
def get_latest_weather (location : String) (o : ApiOutcome) : Json :=
  match location, weatherBody o with
  | _, .ok data => data
  | _, .error _ => Json.obj []

/-- The composite record returned by fetch_all_data. -/
structure AggregateResult where
  crypto_prices : List PriceQuote
  news_articles : List Json
  weather_data : Json

/-- AutomationScraper.fetch_all_data: gather the three adapter results and
assemble them. Each adapter call receives its own outcome; gather waits for
all three and preserves each branch result independently. -/
def fetch_all_data (topic location : String)
    (co : CryptoOutcome) (no wo : ApiOutcome) : AggregateResult :=
  { crypto_prices := fetch_crypto_prices co
    news_articles := get_latest_news topic no
    weather_data := get_latest_weather location wo }

/-- Observable actions of the CLI shell: printed lines and adapter or
aggregator invocations (with the argument strings actually passed). -/
inductive Event where
  | printed (s : String)
  | cryptoCall
  | newsCall (topic : String)
  | weatherCall (location : String)
  | aggregatorCall (topic location : String)
  | printedQuote (name price : String)
  | printedArticle (title sourceName : Json)
  | printedWeather (data : Json)

/-- True on the events that invoke an adapter or the aggregator. -/
def isCall : Event → Bool
  | .cryptoCall => true
  | .newsCall _ => true
  | .weatherCall _ => true
  | .aggregatorCall _ _ => true
  | _ => false

/-- True exactly on aggregator invocations. -/
def isAggregatorCall : Event → Bool
  | .aggregatorCall _ _ => true
  | _ => false

/-- The stdin-derived inputs of one shell interaction: the menu line parsed
as a Python int (none when int() raises ValueError), and the free-text line
read by input() in the news and weather branches (input() yields the empty
string when the operator just presses enter; it never omits the argument). -/
structure ShellInput where
  menu : Option Int
  topicLine : String
  locationLine : String

/-- The five fixed print statements at the top of run_automation_scraper. -/
def headerEvents : List Event :=
  [.printed "Welcome to the Automation Scraper!",
   .printed "Select an option:",
   .printed "1. Fetch Cryptocurrency Data",
   .printed "2. Fetch Latest News",
   .printed "3. Fetch Weather Data"]

/-- Message printed when int() raises on the menu line. -/
def invalidInputMsg : String := "Invalid input. Please enter a number between 1 and 3."

/-- Message printed on an integer selection other than 1, 2 or 3. -/
def invalidOptionMsg : String := "Invalid option. Please select 1, 2, or 3."

/-- The two unguarded lookups in the news print loop: article[title] first,
then article[source][name], in evaluation order of the f-string. -/
def articleFields (a : Json) : Except PyErr (Json × Json) :=
  match pyIndex a "title" with
  | .error e => .error e
  | .ok t =>
    match pyIndex a "source" with
    | .error e => .error e
    | .ok s =>
      match pyIndex s "name" with
      | .error e => .error e
      | .ok n => .ok (t, n)

/-- The news print loop: one printed line per article; a lookup failure
raises out of the loop, discarding the remaining articles. Returns the
events emitted before the failure and the uncaught exception, if any. -/
def printArticles : List Json → List Event × Option PyErr
  | [] => ([], none)
  | a :: rest =>
    match articleFields a with
    | .error e => ([], some e)
    | .ok (t, n) =>
      (.printedArticle t n :: (printArticles rest).fst, (printArticles rest).snd)

/-- run_automation_scraper: print the menu, parse the selection, and either
report invalid input, or invoke exactly one adapter synchronously and print
its result. Returns the event trace and the uncaught exception, if any.
The prompt strings passed to input() are not modelled as events. -/
def run_automation_scraper (inp : ShellInput)
    (co : CryptoOutcome) (no wo : ApiOutcome) : List Event × Option PyErr :=
  match inp.menu with
  | none => (headerEvents ++ [.printed invalidInputMsg], none)
  | some o =>
    if o = 1 then
      let qs := fetch_crypto_prices co
      (headerEvents ++
        [.cryptoCall, .printed "\n--- Cryptocurrency Prices ---"] ++
        qs.map (fun q => .printedQuote q.name q.price), none)
    else if o = 2 then
      let arts := get_latest_news inp.topicLine no
      (headerEvents ++
        [.newsCall inp.topicLine,
         .printed ("\n--- Latest News on " ++ inp.topicLine ++ " ---")] ++
        (printArticles arts).fst, (printArticles arts).snd)
    else if o = 3 then
      let w := get_latest_weather inp.locationLine wo
      (headerEvents ++
        [.weatherCall inp.locationLine,
         .printed ("\n--- Weather Data for " ++ inp.locationLine ++ " ---"),
         .printedWeather w], none)
    else
      (headerEvents ++ [.printed invalidOptionMsg], none)

/-- The name or price field extracted from column i of a row: the text of the
first nested link element of that column, the literal N/A when the column has
no link element. -/
def colText (cols : List Col) (i : Nat) : String :=
  match cols[i]? with
  | some c => c.link.getD "N/A"
  | none => "N/A"

/-- The price entry a well-formed row produces: name from column 2, price
from column 3. -/
def rowQuote (r : Row) : PriceQuote :=
  ⟨colText r.cols 2, colText r.cols 3⟩

/-- The invocation events of one shell interaction, by menu selection. -/
def expectedCalls (inp : ShellInput) : List Event :=
  match inp.menu with
  | none => []
  | some o =>
    if o = 1 then [.cryptoCall]
    else if o = 2 then [.newsCall inp.topicLine]
    else if o = 3 then [.weatherCall inp.locationLine]
    else []

/-- An article on which the two unguarded lookups of the news print loop
succeed: it has a title entry, and a source entry that itself has a name
entry. -/
def HasArticleFields (a : Json) : Prop :=
  (∃ t, pyIndex a "title" = .ok t) ∧
  ∃ s n, pyIndex a "source" = .ok s ∧ pyIndex s "name" = .ok n

/-- Five rows with four columns each; the price column of the third row has
no link element. -/
def rows5 : List Row :=
  [⟨[⟨none⟩, ⟨none⟩, ⟨some "Bitcoin"⟩, ⟨some "67k"⟩]⟩,
   ⟨[⟨none⟩, ⟨none⟩, ⟨some "Ethereum"⟩, ⟨some "3k"⟩]⟩,
   ⟨[⟨none⟩, ⟨none⟩, ⟨some "Tether"⟩, ⟨none⟩]⟩,
   ⟨[⟨none⟩, ⟨none⟩, ⟨some "Solana"⟩, ⟨some "150"⟩]⟩,
   ⟨[⟨none⟩, ⟨none⟩, ⟨some "BNB"⟩, ⟨some "600"⟩]⟩]

/-- The document of rows5 with its second row replaced by a two-column row. -/
def rowsBad : List Row :=
  [⟨[⟨none⟩, ⟨none⟩, ⟨some "Bitcoin"⟩, ⟨some "67k"⟩]⟩,
   ⟨[⟨none⟩, ⟨none⟩]⟩,
   ⟨[⟨none⟩, ⟨none⟩, ⟨some "Tether"⟩, ⟨some "1.0"⟩]⟩,
   ⟨[⟨none⟩, ⟨none⟩, ⟨some "Solana"⟩, ⟨some "150"⟩]⟩,
   ⟨[⟨none⟩, ⟨none⟩, ⟨some "BNB"⟩, ⟨some "600"⟩]⟩]

/-- An article both unguarded lookups succeed on. -/
def goodArticle : Json :=
  Json.obj [("title", Json.str "T"), ("source", Json.obj [("name", Json.str "S")])]

/-- An article with neither a title nor a source entry. -/
def badArticle : Json := Json.obj []

/-! ## Helper lemmas -/

lemma fetch_crypto_prices_of_error {o : CryptoOutcome} {e : PyErr}
    (h : cryptoBody o = .error e) : fetch_crypto_prices o = [] := by
  simp [fetch_crypto_prices, h]

lemma get_latest_news_of_error {o : ApiOutcome} {e : PyErr} (t : String)
    (h : newsBody o = .error e) : get_latest_news t o = [] := by
  simp [get_latest_news, h]

lemma get_latest_weather_of_error {o : ApiOutcome} {e : PyErr} (l : String)
    (h : weatherBody o = .error e) : get_latest_weather l o = Json.obj [] := by
  simp [get_latest_weather, h]

/-! ## C1 -/

/-- C1: for each adapter, whatever the outcome of its network call and
response handling, any raised failure of the try body is absorbed by the
handler: the crypto and news adapters return the empty list and the weather
adapter returns the empty mapping, and no exception reaches the caller
(the adapters are total functions into their plain result types). -/
theorem c1_adapters_absorb_failures :
    (∀ (o : CryptoOutcome) (e : PyErr),
      cryptoBody o = .error e → fetch_crypto_prices o = []) ∧
    (∀ (t : String) (o : ApiOutcome) (e : PyErr),
      newsBody o = .error e → get_latest_news t o = []) ∧
    (∀ (l : String) (o : ApiOutcome) (e : PyErr),
      weatherBody o = .error e → get_latest_weather l o = Json.obj []) :=
  ⟨fun _ _ h => fetch_crypto_prices_of_error h,
   fun t _ _ h => get_latest_news_of_error t h,
   fun l _ _ h => get_latest_weather_of_error l h⟩

/-- C1 witness: a transport failure in each adapter yields the empty
default. -/
theorem c1_witness :
    fetch_crypto_prices (.raise .connectionError) = [] ∧
    get_latest_news "technology" (.raise .connectionError) = [] ∧
    get_latest_weather "Addis Ababa" (.raise .connectionError) = Json.obj [] :=
  ⟨c1_adapters_absorb_failures.1 (.raise .connectionError) .connectionError rfl,
   c1_adapters_absorb_failures.2.1 "technology" (.raise .connectionError)
     .connectionError rfl,
   c1_adapters_absorb_failures.2.2 "Addis Ababa" (.raise .connectionError)
     .connectionError rfl⟩

/-! ## C3 -/

/-- C3: on a parsed weather response with status 200 the adapter returns the
decoded body unchanged; on any non-success status it returns the empty
mapping. -/
theorem c3_weather_status_behavior (loc : String) :
    (∀ body : Json, get_latest_weather loc (.ok ⟨200, body⟩) = body) ∧
    (∀ (st : Nat) (body : Json), st ≠ 200 →
      get_latest_weather loc (.ok ⟨st, body⟩) = Json.obj []) := by
  constructor
  · intro body
    simp [get_latest_weather, weatherBody]
  · intro st body h
    cases body <;> simp [get_latest_weather, weatherBody, pyGet, h]

/-- C3 witness: status 200 with body containing main.temp is returned as-is;
status 404 with a message body yields the empty mapping. -/
theorem c3_witness :
    get_latest_weather "Addis Ababa"
      (.ok ⟨200, Json.obj [("main", Json.obj [("temp", Json.num (43 / 2))])]⟩)
      = Json.obj [("main", Json.obj [("temp", Json.num (43 / 2))])] ∧
    get_latest_weather "Addis Ababa"
      (.ok ⟨404, Json.obj [("message", Json.str "city not found")]⟩)
      = Json.obj [] :=
  ⟨(c3_weather_status_behavior "Addis Ababa").1
      (Json.obj [("main", Json.obj [("temp", Json.num (43 / 2))])]),
   (c3_weather_status_behavior "Addis Ababa").2 404
      (Json.obj [("message", Json.str "city not found")]) (by decide)⟩

/-! ## C5 -/

/-- C5: when the decoded news body is a dictionary whose articles entry is an
array, the adapter returns exactly the first five entries (all of them when
there are fewer), in order, unchanged; when the articles key is missing it
returns the empty list. The HTTP status is never consulted. -/
theorem c5_news_first_five :
    (∀ (t : String) (st : Nat) (fields : List (String × Json))
        (arts : List Json),
      fields.lookup "articles" = some (Json.arr arts) →
      get_latest_news t (.ok ⟨st, Json.obj fields⟩) = arts.take 5) ∧
    (∀ (t : String) (st : Nat) (fields : List (String × Json)),
      fields.lookup "articles" = none →
      get_latest_news t (.ok ⟨st, Json.obj fields⟩) = []) := by
  constructor
  · intro t st fields arts h
    simp [get_latest_news, newsBody, pyGet, h]
  · intro t st fields h
    simp [get_latest_news, newsBody, pyGet, h]

/-- C5 witness: a body with eight articles yields exactly the first five in
order; a body without an articles key yields the empty list. -/
theorem c5_witness :
    get_latest_news "technology"
      (.ok ⟨200, Json.obj [("status", Json.str "ok"),
        ("articles", Json.arr [Json.str "a1", Json.str "a2", Json.str "a3",
          Json.str "a4", Json.str "a5", Json.str "a6", Json.str "a7",
          Json.str "a8"])]⟩)
      = [Json.str "a1", Json.str "a2", Json.str "a3", Json.str "a4",
         Json.str "a5"] ∧
    get_latest_news "technology"
      (.ok ⟨200, Json.obj [("status", Json.str "ok")]⟩) = [] :=
  ⟨(c5_news_first_five.1 "technology" 200
      [("status", Json.str "ok"),
       ("articles", Json.arr [Json.str "a1", Json.str "a2", Json.str "a3",
         Json.str "a4", Json.str "a5", Json.str "a6", Json.str "a7",
         Json.str "a8"])]
      [Json.str "a1", Json.str "a2", Json.str "a3", Json.str "a4",
       Json.str "a5", Json.str "a6", Json.str "a7", Json.str "a8"] rfl).trans
      rfl,
   c5_news_first_five.2 "technology" 200 [("status", Json.str "ok")] rfl⟩

/-! ## C4 -/

lemma extractRow_wf (cols : List Col) (h : 4 ≤ cols.length) :
    extractRow cols = .ok (some (colText cols 2, colText cols 3)) := by
  have hp : 0 < cols.length := by omega
  have h2 := List.getElem?_eq_getElem (l := cols) (n := 2) (by omega)
  have h3 := List.getElem?_eq_getElem (l := cols) (n := 3) (by omega)
  simp [extractRow, colText, hp, h2, h3]

lemma fetchLoop_wf (l : List Row) (h : ∀ r ∈ l, 4 ≤ r.cols.length) :
    fetchLoop l = .ok (l.map rowQuote) := by
  induction l with
  | nil => rfl
  | cons r rs ih =>
    have hr : 4 ≤ r.cols.length := h r (List.mem_cons_self r rs)
    have hrest := ih fun x hx => h x (List.mem_cons_of_mem r hx)
    simp [fetchLoop, extractRow_wf r.cols hr, hrest, rowQuote]

/-- C4: on a parsed page whose first 5 rows each have at least 4 columns,
the adapter returns exactly 5 entries in row order; each name is the link
text of column 2 and each price the link text of column 3, defaulting to
N/A when the column has no link element. A row with zero columns is skipped
by the loop. -/
theorem c4_crypto_five_well_formed_rows (rows : List Row)
    (h5 : 5 ≤ rows.length)
    (hw : ∀ r ∈ rows.take 5, 4 ≤ r.cols.length) :
    fetch_crypto_prices (.ok rows) = (rows.take 5).map rowQuote ∧
    (fetch_crypto_prices (.ok rows)).length = 5 ∧
    (∀ rs : List Row, fetchLoop ({ cols := [] } :: rs) = fetchLoop rs) := by
  have hl := fetchLoop_wf (rows.take 5) hw
  refine ⟨?_, ?_, fun rs => rfl⟩
  · simp [fetch_crypto_prices, cryptoBody, hl]
  · simp [fetch_crypto_prices, cryptoBody, hl]
    omega

/-- C4 witness: five well-formed rows produce the five entries in order, with
the missing link element of the third price column defaulting to N/A. -/
theorem c4_witness :
    fetch_crypto_prices (.ok rows5) =
      [⟨"Bitcoin", "67k"⟩, ⟨"Ethereum", "3k"⟩, ⟨"Tether", "N/A"⟩,
       ⟨"Solana", "150"⟩, ⟨"BNB", "600"⟩] ∧
    (fetch_crypto_prices (.ok rows5)).length = 5 ∧
    fetchLoop ({ cols := [] } :: rows5) = fetchLoop rows5 := by
  have h := c4_crypto_five_well_formed_rows rows5 (by decide) (by decide)
  exact ⟨h.1.trans rfl, h.2.1, h.2.2 rows5⟩

/-! ## C9 -/

lemma extractRow_short (cols : List Col) (h0 : 0 < cols.length)
    (h4 : cols.length < 4) : extractRow cols = .error .indexError := by
  have h3 : cols[3]? = none := List.getElem?_eq_none (by omega)
  cases h2 : cols[2]? <;> simp [extractRow, h0, h2, h3]

lemma fetchLoop_short (l : List Row)
    (h : ∃ r ∈ l, 0 < r.cols.length ∧ r.cols.length < 4) :
    ∃ e, fetchLoop l = .error e := by
  induction l with
  | nil => simp at h
  | cons r rs ih =>
    obtain ⟨r0, hmem, h0, h4⟩ := h
    rcases List.mem_cons.mp hmem with heq | htail
    · subst heq
      exact ⟨.indexError, by simp [fetchLoop, extractRow_short r0.cols h0 h4]⟩
    · obtain ⟨e, he⟩ := ih ⟨r0, htail, h0, h4⟩
      cases hx : extractRow r.cols with
      | error e2 => exact ⟨e2, by simp [fetchLoop, hx]⟩
      | ok v =>
        cases v with
        | none => exact ⟨e, by simp [fetchLoop, hx, he]⟩
        | some p =>
          obtain ⟨n, pr⟩ := p
          exact ⟨e, by simp [fetchLoop, hx, he]⟩

/-- C9: a failure on one row is not locally contained: when any of the first
5 rows has at least one column but fewer than 4, the IndexError raised while
indexing that row aborts the whole loop, the outer handler fires and the
adapter returns the empty list, discarding the entries extracted from the
earlier well-formed rows. -/
theorem c9_short_row_aborts_whole_parse (rows : List Row)
    (h : ∃ r ∈ rows.take 5, 0 < r.cols.length ∧ r.cols.length < 4) :
    fetch_crypto_prices (.ok rows) = [] := by
  obtain ⟨e, he⟩ := fetchLoop_short (rows.take 5) h
  simp [fetch_crypto_prices, cryptoBody, he]

/-- C9 witness: one two-column row among the first five empties the whole
result, although the first row alone extracts successfully. -/
theorem c9_witness :
    fetch_crypto_prices (.ok rowsBad) = [] ∧
    fetch_crypto_prices (.ok [⟨[⟨none⟩, ⟨none⟩, ⟨some "Bitcoin"⟩,
      ⟨some "67k"⟩]⟩]) = [⟨"Bitcoin", "67k"⟩] :=
  ⟨c9_short_row_aborts_whole_parse rowsBad
      ⟨⟨[⟨none⟩, ⟨none⟩]⟩, by decide, by decide, by decide⟩,
   rfl⟩

/-! ## C2 -/

/-- C2: the aggregate assembled after the gather has each field equal to the
result its adapter produced on its own outcome; in particular, when the
market-data body raises (so its branch degrades to the empty list), the news
and weather fields still hold the results of the other two adapters,
unchanged. -/
theorem c2_aggregate_preserves_branches (topic location : String)
    (co : CryptoOutcome) (no wo : ApiOutcome) :
    (fetch_all_data topic location co no wo).crypto_prices
        = fetch_crypto_prices co ∧
    (fetch_all_data topic location co no wo).news_articles
        = get_latest_news topic no ∧
    (fetch_all_data topic location co no wo).weather_data
        = get_latest_weather location wo ∧
    (∀ e : PyErr, cryptoBody co = .error e →
      (fetch_all_data topic location co no wo).crypto_prices = [] ∧
      (fetch_all_data topic location co no wo).news_articles
          = get_latest_news topic no ∧
      (fetch_all_data topic location co no wo).weather_data
          = get_latest_weather location wo) := by
  refine ⟨rfl, rfl, rfl, fun e he => ⟨?_, rfl, rfl⟩⟩
  show fetch_crypto_prices co = []
  exact fetch_crypto_prices_of_error he

/-- C2 witness: with a failed market-data call and successful news and
weather calls, the aggregate keeps the successful data. -/
theorem c2_witness :
    (fetch_all_data "technology" "Addis Ababa" (.raise .connectionError)
        (.ok ⟨200, Json.obj [("articles", Json.arr [Json.str "a1"])]⟩)
        (.ok ⟨200, Json.obj [("main", Json.obj [("temp", Json.num 21)])]⟩)
      ).crypto_prices = [] ∧
    (fetch_all_data "technology" "Addis Ababa" (.raise .connectionError)
        (.ok ⟨200, Json.obj [("articles", Json.arr [Json.str "a1"])]⟩)
        (.ok ⟨200, Json.obj [("main", Json.obj [("temp", Json.num 21)])]⟩)
      ).news_articles = [Json.str "a1"] ∧
    (fetch_all_data "technology" "Addis Ababa" (.raise .connectionError)
        (.ok ⟨200, Json.obj [("articles", Json.arr [Json.str "a1"])]⟩)
        (.ok ⟨200, Json.obj [("main", Json.obj [("temp", Json.num 21)])]⟩)
      ).weather_data = Json.obj [("main", Json.obj [("temp", Json.num 21)])] := by
  have h := c2_aggregate_preserves_branches "technology" "Addis Ababa"
    (.raise .connectionError)
    (.ok ⟨200, Json.obj [("articles", Json.arr [Json.str "a1"])]⟩)
    (.ok ⟨200, Json.obj [("main", Json.obj [("temp", Json.num 21)])]⟩)
  obtain ⟨hc, hn, hw⟩ := h.2.2.2 .connectionError rfl
  exact ⟨hc, hn.trans rfl, hw.trans rfl⟩

/-! ## Shell trace lemmas -/

lemma isCall_printed (s : String) : isCall (.printed s) = false := rfl

lemma filter_isCall_header : headerEvents.filter isCall = [] := rfl

lemma filter_isCall_quotes (qs : List PriceQuote) :
    (qs.map fun q => Event.printedQuote q.name q.price).filter isCall = [] := by
  induction qs with
  | nil => rfl
  | cons q qs ih => simp [List.filter, isCall, ih]

lemma filter_isCall_printArticles (arts : List Json) :
    (printArticles arts).fst.filter isCall = [] := by
  induction arts with
  | nil => rfl
  | cons a rest ih =>
    cases hx : articleFields a with
    | error e => simp [printArticles, hx]
    | ok p =>
      obtain ⟨t, n⟩ := p
      simpa [printArticles, hx, List.filter, isCall] using ih


lemma filter_agg_via_calls (l : List Event) :
    l.filter isAggregatorCall = (l.filter isCall).filter isAggregatorCall := by
  induction l with
  | nil => rfl
  | cons e rest ih => cases e <;> simp [List.filter, isCall, isAggregatorCall, ih]

lemma shell_calls_eq (menu : Option Int) (tl ll : String)
    (co : CryptoOutcome) (no wo : ApiOutcome) :
    (run_automation_scraper ⟨menu, tl, ll⟩ co no wo).fst.filter isCall
      = expectedCalls ⟨menu, tl, ll⟩ := by
  match menu with
  | none => rfl
  | some o =>
    by_cases h1 : o = 1
    · subst h1
      show (headerEvents ++
        [Event.cryptoCall, .printed "\n--- Cryptocurrency Prices ---"] ++
        ((fetch_crypto_prices co).map fun q =>
          Event.printedQuote q.name q.price)).filter isCall = [Event.cryptoCall]
      rw [List.filter_append, List.filter_append, filter_isCall_header,
        filter_isCall_quotes]
      rfl
    · by_cases h2 : o = 2
      · subst h2
        show (headerEvents ++
          [Event.newsCall tl, .printed ("\n--- Latest News on " ++ tl ++ " ---")] ++
          (printArticles (get_latest_news tl no)).fst).filter isCall
            = [Event.newsCall tl]
        rw [List.filter_append, List.filter_append, filter_isCall_header,
          filter_isCall_printArticles]
        rfl
      · by_cases h3 : o = 3
        · subst h3
          show (headerEvents ++
            [Event.weatherCall ll, .printed ("\n--- Weather Data for " ++ ll ++ " ---"),
             .printedWeather (get_latest_weather ll wo)]).filter isCall
              = [Event.weatherCall ll]
          rw [List.filter_append, filter_isCall_header]
          rfl
        · show ((run_automation_scraper ⟨some o, tl, ll⟩ co no wo).fst.filter isCall
            = expectedCalls ⟨some o, tl, ll⟩)
          rw [show run_automation_scraper ⟨some o, tl, ll⟩ co no wo
              = (headerEvents ++ [.printed invalidOptionMsg], none) by
            simp [run_automation_scraper, h1, h2, h3]]
          rw [show expectedCalls ⟨some o, tl, ll⟩ = [] by
            simp [expectedCalls, h1, h2, h3]]
          rfl

lemma shell_snd_eq (menu : Option Int) (tl ll : String)
    (co : CryptoOutcome) (no wo : ApiOutcome) :
    (run_automation_scraper ⟨menu, tl, ll⟩ co no wo).snd =
      match menu with
      | none => none
      | some o =>
        if o = 2 then (printArticles (get_latest_news tl no)).snd
        else none := by
  match menu with
  | none => rfl
  | some o =>
    by_cases h1 : o = 1
    · subst h1; rfl
    · by_cases h2 : o = 2
      · subst h2; rfl
      · by_cases h3 : o = 3
        · subst h3; rfl
        · simp [run_automation_scraper, h1, h2, h3]

/-! ## C7 -/

/-- C7: a menu line that does not parse as an integer makes the shell print
the invalid-input message and end the interaction with no adapter invocation
and no retry (the trace is exactly the menu header plus that message); an
integer selection outside 1 to 3 makes it print the invalid-option message,
again invoking no adapter. -/
theorem c7_invalid_menu_input (inp : ShellInput) (co : CryptoOutcome)
    (no wo : ApiOutcome) :
    (inp.menu = none →
      (run_automation_scraper inp co no wo).fst
          = headerEvents ++ [.printed invalidInputMsg] ∧
      (run_automation_scraper inp co no wo).fst.filter isCall = []) ∧
    (∀ k : Int, inp.menu = some k → ¬(1 ≤ k ∧ k ≤ 3) →
      (run_automation_scraper inp co no wo).fst
          = headerEvents ++ [.printed invalidOptionMsg] ∧
      (run_automation_scraper inp co no wo).fst.filter isCall = []) := by
  obtain ⟨menu, tl, ll⟩ := inp
  constructor
  · intro h
    cases h
    exact ⟨rfl, rfl⟩
  · intro k hk hrange
    have h1 : ¬(k = 1) := by omega
    have h2 : ¬(k = 2) := by omega
    have h3 : ¬(k = 3) := by omega
    cases hk
    have htr : run_automation_scraper ⟨some k, tl, ll⟩ co no wo
        = (headerEvents ++ [.printed invalidOptionMsg], none) := by
      simp [run_automation_scraper, h1, h2, h3]
    rw [htr]
    exact ⟨rfl, rfl⟩

/-- C7 witness: an unparsable menu line, and the selection 9, each produce
the corresponding message and no adapter invocation. -/
theorem c7_witness :
    (run_automation_scraper ⟨none, "", ""⟩ (.ok []) (.raise .connectionError)
        (.raise .connectionError)).fst
      = headerEvents ++ [.printed invalidInputMsg] ∧
    (run_automation_scraper ⟨some 9, "", ""⟩ (.ok []) (.raise .connectionError)
        (.raise .connectionError)).fst
      = headerEvents ++ [.printed invalidOptionMsg] ∧
    (run_automation_scraper ⟨some 9, "", ""⟩ (.ok []) (.raise .connectionError)
        (.raise .connectionError)).fst.filter isCall = [] :=
  ⟨((c7_invalid_menu_input ⟨none, "", ""⟩ (.ok []) (.raise .connectionError)
      (.raise .connectionError)).1 rfl).1,
   ((c7_invalid_menu_input ⟨some 9, "", ""⟩ (.ok []) (.raise .connectionError)
      (.raise .connectionError)).2 9 rfl (by decide)).1,
   ((c7_invalid_menu_input ⟨some 9, "", ""⟩ (.ok []) (.raise .connectionError)
      (.raise .connectionError)).2 9 rfl (by decide)).2⟩

/-! ## C8 -/

/-- C8: for every operator input and every network outcome, the shell trace
contains no aggregator invocation; each valid selection invokes exactly its
one adapter: 1 the market-data adapter, 2 the news adapter with the entered
topic line, 3 the weather adapter with the entered location line. -/
theorem c8_shell_never_aggregates (inp : ShellInput) (co : CryptoOutcome)
    (no wo : ApiOutcome) :
    (run_automation_scraper inp co no wo).fst.filter isAggregatorCall = [] ∧
    (inp.menu = some 1 →
      (run_automation_scraper inp co no wo).fst.filter isCall
        = [Event.cryptoCall]) ∧
    (inp.menu = some 2 →
      (run_automation_scraper inp co no wo).fst.filter isCall
        = [Event.newsCall inp.topicLine]) ∧
    (inp.menu = some 3 →
      (run_automation_scraper inp co no wo).fst.filter isCall
        = [Event.weatherCall inp.locationLine]) := by
  obtain ⟨menu, tl, ll⟩ := inp
  refine ⟨?_, ?_, ?_, ?_⟩
  · rw [filter_agg_via_calls, shell_calls_eq]
    match menu with
    | none => rfl
    | some o =>
      by_cases h1 : o = 1
      · subst h1; rfl
      · by_cases h2 : o = 2
        · subst h2; rfl
        · by_cases h3 : o = 3
          · subst h3; rfl
          · simp [expectedCalls, h1, h2, h3]
  · intro hm
    cases hm
    rw [shell_calls_eq]
    rfl
  · intro hm
    cases hm
    rw [shell_calls_eq]
    rfl
  · intro hm
    cases hm
    rw [shell_calls_eq]
    rfl

/-- C8 witness: each valid selection yields exactly its one adapter
invocation and no aggregator invocation. -/
theorem c8_witness :
    (run_automation_scraper ⟨some 1, "t", "l"⟩ (.ok []) (.raise .connectionError)
        (.raise .connectionError)).fst.filter isCall = [Event.cryptoCall] ∧
    (run_automation_scraper ⟨some 2, "t", "l"⟩ (.ok []) (.raise .connectionError)
        (.raise .connectionError)).fst.filter isCall = [Event.newsCall "t"] ∧
    (run_automation_scraper ⟨some 3, "t", "l"⟩ (.ok []) (.raise .connectionError)
        (.raise .connectionError)).fst.filter isCall = [Event.weatherCall "l"] ∧
    (run_automation_scraper ⟨some 3, "t", "l"⟩ (.ok []) (.raise .connectionError)
        (.raise .connectionError)).fst.filter isAggregatorCall = [] :=
  ⟨(c8_shell_never_aggregates ⟨some 1, "t", "l"⟩ (.ok [])
      (.raise .connectionError) (.raise .connectionError)).2.1 rfl,
   (c8_shell_never_aggregates ⟨some 2, "t", "l"⟩ (.ok [])
      (.raise .connectionError) (.raise .connectionError)).2.2.1 rfl,
   (c8_shell_never_aggregates ⟨some 3, "t", "l"⟩ (.ok [])
      (.raise .connectionError) (.raise .connectionError)).2.2.2 rfl,
   (c8_shell_never_aggregates ⟨some 3, "t", "l"⟩ (.ok [])
      (.raise .connectionError) (.raise .connectionError)).1⟩

/-! ## C6 -/

/-- C6 counterexample: the operator selects weather and provides no location
(input() yields the empty string); the shell invokes the weather adapter with
the empty string, not with the default Addis Ababa. -/
theorem c6_counterexample :
    (run_automation_scraper ⟨some 3, "technology", ""⟩ (.ok [])
        (.raise .connectionError)
        (.ok ⟨200, Json.obj []⟩)).fst.filter isCall
      = [Event.weatherCall ""] ∧
    (run_automation_scraper ⟨some 3, "technology", ""⟩ (.ok [])
        (.raise .connectionError)
        (.ok ⟨200, Json.obj []⟩)).fst.filter isCall
      ≠ [Event.weatherCall defaultLocation] := by
  refine ⟨rfl, ?_⟩
  intro h
  rw [show (run_automation_scraper ⟨some 3, "technology", ""⟩ (.ok [])
      (.raise .connectionError)
      (.ok ⟨200, Json.obj []⟩)).fst.filter isCall
    = [Event.weatherCall ""] from rfl] at h
  rw [show defaultLocation = "Addis Ababa" from rfl] at h
  have h2 : "" = "Addis Ababa" := by
    injection h with ha hb
    injection ha
  exact absurd h2 (by decide)

/-- C6 amended: the defaults technology and Addis Ababa are declaration-site
parameter defaults of the adapters, applied only when a call site omits the
argument; the CLI path never omits it: the shell passes the operator-entered
topic and location lines verbatim to the adapters, including the empty
string. -/
theorem c6_amended_cli_passes_input_verbatim (inp : ShellInput)
    (co : CryptoOutcome) (no wo : ApiOutcome) :
    (inp.menu = some 2 →
      (run_automation_scraper inp co no wo).fst.filter isCall
        = [Event.newsCall inp.topicLine]) ∧
    (inp.menu = some 3 →
      (run_automation_scraper inp co no wo).fst.filter isCall
        = [Event.weatherCall inp.locationLine]) ∧
    defaultTopic = "technology" ∧ defaultLocation = "Addis Ababa" := by
  obtain ⟨menu, tl, ll⟩ := inp
  refine ⟨?_, ?_, rfl, rfl⟩
  · intro hm
    cases hm
    rw [shell_calls_eq]
    rfl
  · intro hm
    cases hm
    rw [shell_calls_eq]
    rfl

/-- C6 amended witness: with empty topic and location lines, the news and
weather selections invoke their adapters with the empty string. -/
theorem c6_amended_witness :
    (run_automation_scraper ⟨some 2, "", ""⟩ (.ok []) (.raise .connectionError)
        (.raise .connectionError)).fst.filter isCall = [Event.newsCall ""] ∧
    (run_automation_scraper ⟨some 3, "", ""⟩ (.ok []) (.raise .connectionError)
        (.raise .connectionError)).fst.filter isCall = [Event.weatherCall ""] :=
  ⟨(c6_amended_cli_passes_input_verbatim ⟨some 2, "", ""⟩ (.ok [])
      (.raise .connectionError) (.raise .connectionError)).1 rfl,
   (c6_amended_cli_passes_input_verbatim ⟨some 3, "", ""⟩ (.ok [])
      (.raise .connectionError) (.raise .connectionError)).2.1 rfl⟩

/-! ## C10 -/

lemma articleFields_ok_of_has {a : Json} (h : HasArticleFields a) :
    ∃ t n, articleFields a = .ok (t, n) := by
  obtain ⟨⟨t, ht⟩, s, n, hs, hn⟩ := h
  exact ⟨t, n, by simp [articleFields, ht, hs, hn]⟩

lemma articleFields_error_of_missing {a : Json} (h : ¬ HasArticleFields a) :
    ∃ e, articleFields a = .error e := by
  cases ht : pyIndex a "title" with
  | error e => exact ⟨e, by simp [articleFields, ht]⟩
  | ok t =>
    cases hs : pyIndex a "source" with
    | error e => exact ⟨e, by simp [articleFields, ht, hs]⟩
    | ok s =>
      cases hn : pyIndex s "name" with
      | error e => exact ⟨e, by simp [articleFields, ht, hs, hn]⟩
      | ok n => exact absurd ⟨⟨t, ht⟩, s, n, hs, hn⟩ h

lemma printArticles_snd_none (arts : List Json)
    (h : ∀ a ∈ arts, HasArticleFields a) : (printArticles arts).snd = none := by
  induction arts with
  | nil => rfl
  | cons a rest ih =>
    obtain ⟨t, n, hok⟩ := articleFields_ok_of_has (h a (List.mem_cons_self a rest))
    have hrest := ih fun x hx => h x (List.mem_cons_of_mem a hx)
    simp [printArticles, hok, hrest]

lemma printArticles_snd_some (arts : List Json)
    (h : ∃ a ∈ arts, ¬ HasArticleFields a) :
    ∃ e, (printArticles arts).snd = some e := by
  induction arts with
  | nil => simp at h
  | cons a rest ih =>
    obtain ⟨a0, hmem, hbad⟩ := h
    rcases List.mem_cons.mp hmem with heq | htail
    · subst heq
      obtain ⟨e, he⟩ := articleFields_error_of_missing hbad
      exact ⟨e, by simp [printArticles, he]⟩
    · obtain ⟨e, he⟩ := ih ⟨a0, htail, hbad⟩
      cases hx : articleFields a with
      | error e2 => exact ⟨e2, by simp [printArticles, hx]⟩
      | ok p =>
        obtain ⟨t, n⟩ := p
        exact ⟨e, by simp [printArticles, hx, he]⟩

/-- C10: on the news selection the shell prints title and source name of
each returned article with no guard: when every returned article carries
both fields the interaction ends with no uncaught exception, and when any
returned article lacks one of them a lookup error is raised out of the shell
instead of being converted to a printed message; every other selection ends
with no uncaught exception, so this is the only caller-visible failure
path. -/
theorem c10_unguarded_article_printing (inp : ShellInput) (co : CryptoOutcome)
    (no wo : ApiOutcome) (hm : inp.menu = some 2) :
    ((∀ a ∈ get_latest_news inp.topicLine no, HasArticleFields a) →
      (run_automation_scraper inp co no wo).snd = none) ∧
    ((∃ a ∈ get_latest_news inp.topicLine no, ¬ HasArticleFields a) →
      ∃ e, (run_automation_scraper inp co no wo).snd = some e) ∧
    (∀ (inp2 : ShellInput) (co2 : CryptoOutcome) (no2 wo2 : ApiOutcome),
      inp2.menu ≠ some 2 →
      (run_automation_scraper inp2 co2 no2 wo2).snd = none) := by
  obtain ⟨menu, tl, ll⟩ := inp
  cases hm
  have hs : (run_automation_scraper ⟨some 2, tl, ll⟩ co no wo).snd
      = (printArticles (get_latest_news tl no)).snd :=
    shell_snd_eq (some 2) tl ll co no wo
  refine ⟨?_, ?_, ?_⟩
  · intro h
    rw [hs]
    exact printArticles_snd_none _ h
  · intro h
    rw [hs]
    exact printArticles_snd_some _ h
  · intro inp2 co2 no2 wo2 hne
    obtain ⟨m2, t2, l2⟩ := inp2
    match m2 with
    | none => rfl
    | some o =>
      by_cases ho : o = 2
      · subst ho
        exact absurd rfl hne
      · rw [shell_snd_eq]
        simp [ho]

/-- C10 witness: with one well-formed article the news interaction ends
cleanly; with one article lacking its fields a KeyError escapes the shell. -/
theorem c10_witness :
    (run_automation_scraper ⟨some 2, "ai", ""⟩ (.ok [])
        (.ok ⟨200, Json.obj [("articles", Json.arr [goodArticle])]⟩)
        (.raise .connectionError)).snd = none ∧
    (run_automation_scraper ⟨some 2, "ai", ""⟩ (.ok [])
        (.ok ⟨200, Json.obj [("articles", Json.arr [badArticle])]⟩)
        (.raise .connectionError)).snd = some PyErr.keyError :=
  ⟨(c10_unguarded_article_printing ⟨some 2, "ai", ""⟩ (.ok [])
      (.ok ⟨200, Json.obj [("articles", Json.arr [goodArticle])]⟩)
      (.raise .connectionError) rfl).1 (by
        intro a ha
        rw [show get_latest_news "ai"
            (.ok ⟨200, Json.obj [("articles", Json.arr [goodArticle])]⟩)
          = [goodArticle] from rfl, List.mem_singleton] at ha
        subst ha
        exact ⟨⟨Json.str "T", rfl⟩,
          Json.obj [("name", Json.str "S")], Json.str "S", rfl, rfl⟩),
   rfl⟩
